import Mathlib

/-!
Shallow embedding of the Trello CLI helper scripts
(`scripts/trello_client.py`, `scripts/manage_card.py`).

Python dictionaries are modelled as association lists in insertion
order; byte strings are modelled as `String`; the process environment
is a partial map from variable names to values; fallible Python code
(raising `TrelloError` / `FileNotFoundError`) is modelled with
`Except String`.  The network itself is not executed: `trello_request`
returns the fully prepared request (URL, method, body, headers), so an
`Except.error` result means the failure happened before any network
request was issued.
-/

namespace Trello

/-- The process environment: a partial map from variable names to values
(`os.environ` / `os.getenv`). -/
def Env := String → Option String

/-- Constant `AUTHORIZATION_BASE` from `trello_client.py`. -/
def AUTHORIZATION_BASE : String := "https://trello.com/1/authorize"

/-- Constant `AUTH_EXPIRATION` from `trello_client.py`. -/
def AUTH_EXPIRATION : String := "never"

/-- Constant `AUTH_NAME` from `trello_client.py`. -/
def AUTH_NAME : String := "Codex Trello Access"

/-- Drop every leading `/` of a character list (helper for `rstrip`). -/
def dropLeadingSlashes : List Char → List Char
  | [] => []
  | c :: r => if c = '/' then dropLeadingSlashes r else c :: r

/-- Python `s.rstrip("/")`: remove all trailing slashes. -/
def rstripSlash (s : String) : String :=
  String.mk (dropLeadingSlashes s.data.reverse).reverse

/-- The module-level configuration of `trello_client.py`.  `BASE_URL` and
`AUTH_SCOPE` are module-level globals, computed from the environment once
at import time. -/
structure Config where
  baseUrl : String
  authScope : String

/-- Python module import: evaluate the module-level globals
`BASE_URL = os.environ.get("TRELLO_API_BASE_URL", "https://api.trello.com/1").rstrip("/")`
and `AUTH_SCOPE = os.environ.get("TRELLO_AUTH_SCOPE", "read,write")`
against the environment in effect at import time. -/
def importModule (env : Env) : Config :=
  { baseUrl := rstripSlash ((env "TRELLO_API_BASE_URL").getD "https://api.trello.com/1")
    authScope := (env "TRELLO_AUTH_SCOPE").getD "read,write" }

/-- Characters never quoted by `urllib.parse.quote` (ASCII letters,
digits, `_.-~`). -/
def isSafeChar (c : Char) : Bool :=
  c.isAlphanum || c = '_' || c = '.' || c = '-' || c = '~'

/-- Uppercase hexadecimal digit, as produced by `urllib.parse.quote`. -/
def hexDigit (n : Nat) : Char :=
  if n < 10 then Char.ofNat ('0'.toNat + n) else Char.ofNat ('A'.toNat + n - 10)

/-- UTF-8 encoding of a single character (`str.encode("utf-8")`),
as byte values. -/
def utf8Bytes (c : Char) : List Nat :=
  let n := c.toNat
  if n < 0x80 then [n]
  else if n < 0x800 then [0xC0 + n / 0x40, 0x80 + n % 0x40]
  else if n < 0x10000 then
    [0xE0 + n / 0x1000, 0x80 + n / 0x40 % 0x40, 0x80 + n % 0x40]
  else
    [0xF0 + n / 0x40000, 0x80 + n / 0x1000 % 0x40, 0x80 + n / 0x40 % 0x40, 0x80 + n % 0x40]

/-- `urllib.parse.quote_plus` on one character: safe characters are kept,
a space becomes `+`, everything else is percent-encoded per UTF-8 byte. -/
def quoteChar (c : Char) : List Char :=
  if isSafeChar c then [c]
  else if c = ' ' then ['+']
  else (utf8Bytes c).map (fun b => ['%', hexDigit (b / 16), hexDigit (b % 16)]) |>.flatten

/-- `urllib.parse.quote_plus(s, safe="")`, the encoder `urlencode` applies
to every key and value. -/
def quotePlus (s : String) : String :=
  String.mk (s.data.map quoteChar).flatten

/-- One `key=value` pair as emitted by `urllib.parse.urlencode`. -/
def encPair (p : String × String) : String :=
  quotePlus p.1 ++ "=" ++ quotePlus p.2

/-- `urllib.parse.urlencode(d, doseq=True)` over string values: the
`&`-joined list of encoded pairs in insertion order. -/
def urlencode : List (String × String) → String
  | [] => ""
  | [p] => encPair p
  | p :: q :: rest => encPair p ++ "&" ++ urlencode (q :: rest)

/-- Python `d[k] = v` on an association list with distinct names: replace
the value in place if the name is present, otherwise append the pair. -/
def dictInsert : List (String × String) → String → String → List (String × String)
  | [], k, v => [(k, v)]
  | p :: rest, k, v => if p.1 = k then (k, v) :: rest else p :: dictInsert rest k v

/-- `authorization_url` from `trello_client.py`. -/
def authorization_url (cfg : Config) (key : String) : String :=
  AUTHORIZATION_BASE ++ "?" ++ urlencode
    [("key", key), ("scope", cfg.authScope), ("expiration", AUTH_EXPIRATION),
     ("name", AUTH_NAME), ("response_type", "token")]

/-- `authorization_instructions` from `trello_client.py`. -/
def authorization_instructions (cfg : Config) (key : String) : String :=
  " To grant access, open the following link while signed in as a board member, " ++
  "approve the addon, and set TRELLO_TOKEN to the token Trello returns: " ++
  authorization_url cfg key

/-- The message raised by `require_api_key` when the key is missing. -/
def keyMissingMsg : String :=
  "TRELLO_API_KEY is not configured. Export it before running the helper."

/-- `require_api_key` from `trello_client.py`: `os.getenv` returns `none`
when unset, and Python `if not value` also treats `""` as missing. -/
def require_api_key (env : Env) : Except String String :=
  match env "TRELLO_API_KEY" with
  | none => .error keyMissingMsg
  | some v => if v = "" then .error keyMissingMsg else .ok v

/-- The message raised by `require_token` when the token is missing. -/
def tokenMissingMsg (cfg : Config) (key : String) : String :=
  "TRELLO_TOKEN is not configured. The helper can build an authorization link " ++
  "so you can create one." ++ authorization_instructions cfg key

/-- `require_token` from `trello_client.py`. -/
def require_token (cfg : Config) (env : Env) (key : String) : Except String String :=
  match env "TRELLO_TOKEN" with
  | none => .error (tokenMissingMsg cfg key)
  | some t => if t = "" then .error (tokenMissingMsg cfg key) else .ok t

/-- `build_auth_params` from `trello_client.py`: copy the caller's mapping
and assign the resolved key and token under the names `key` and `token`. -/
def build_auth_params (cfg : Config) (env : Env) (extra : List (String × String)) :
    Except String (List (String × String)) :=
  match require_api_key env with
  | .error e => .error e
  | .ok key =>
    match require_token cfg env key with
    | .error e => .error e
    | .ok token => .ok (dictInsert (dictInsert extra "key" key) "token" token)

/-- A file-upload field value: `(filename, data, content_type)`, matching
the `Tuple[str, bytes, str]` of `trello_client.py`. -/
abbrev FileSpec := String × String × String

/-- Loop of `_encode_multipart_formdata` over scalar fields, with the
growing buffer passed explicitly. -/
def encodeFieldsLoop (b : String) : String → List (String × String) → String
  | buf, [] => buf
  | buf, (n, v) :: rest =>
      encodeFieldsLoop b
        (buf ++ "--" ++ b ++ "\r\n" ++
         "Content-Disposition: form-data; name=\"" ++ n ++ "\"\r\n\r\n" ++
         v ++ "\r\n") rest

/-- Loop of `_encode_multipart_formdata` over file fields. -/
def encodeFilesLoop (b : String) : String → List (String × FileSpec) → String
  | buf, [] => buf
  | buf, (n, (fn, data, ct)) :: rest =>
      encodeFilesLoop b
        (buf ++ "--" ++ b ++ "\r\n" ++
         "Content-Disposition: form-data; name=\"" ++ n ++ "\"; filename=\"" ++ fn ++ "\"\r\n" ++
         "Content-Type: " ++ ct ++ "\r\n\r\n" ++
         data ++ "\r\n") rest

/-- `_encode_multipart_formdata` from `trello_client.py`.  The random
`uuid.uuid4().hex` boundary is supplied as the parameter `b`; the function
returns the `(boundary, body)` pair like the source. -/
def _encode_multipart_formdata (b : String) (fields : List (String × String))
    (files : List (String × FileSpec)) : String × String :=
  (b, encodeFilesLoop b (encodeFieldsLoop b "" fields) files ++ "--" ++ b ++ "--\r\n")

/-- `String.map Char.toUpper`, modelling `str.upper()` on the ASCII
method names used by the scripts. -/
def strUpper (s : String) : String :=
  String.mk (s.data.map Char.toUpper)

/-- The request `urllib.request.Request` is handed before `urlopen` runs:
final URL, upper-cased method, optional body, and the headers added by
`trello_request`. -/
structure PreparedRequest where
  url : String
  method : String
  body : Option String
  headers : List (String × String)

/-- `trello_request` from `trello_client.py`, up to the point where the
request object is fully prepared (the `urlopen` exchange itself is
modelled separately by `handle_response`).  An `Except.error` result is
raised before any request object exists. -/
def trello_request (cfg : Config) (env : Env) (method path : String)
    (params : List (String × String)) (files : List (String × FileSpec))
    (b : String) : Except String PreparedRequest :=
  match build_auth_params cfg env params with
  | .error e => .error e
  | .ok auth =>
    if strUpper method = "GET" then
      .ok { url := cfg.baseUrl ++ path ++ "?" ++ urlencode auth, method := strUpper method,
            body := none, headers := [] }
    else if !files.isEmpty then
      .ok { url := cfg.baseUrl ++ path, method := strUpper method,
            body := some (_encode_multipart_formdata b auth files).2,
            headers := [("Content-Type",
              "multipart/form-data; boundary=" ++ (_encode_multipart_formdata b auth files).1)] }
    else
      .ok { url := cfg.baseUrl ++ path, method := strUpper method,
            body := some (urlencode auth),
            headers := [("Content-Type", "application/x-www-form-urlencoded")] }

/-- Outcome of the `urlopen` exchange, as discriminated by the two
`except` clauses of `trello_request`. -/
inductive HttpOutcome where
  | success (body : String)
  | httpError (code : Nat) (reason : String)
  | urlError (reason : String)

/-- The message built for `urllib.error.HTTPError`: status code, request
URL and reason phrase, plus the authorization instructions exactly for
401 and 403. -/
def httpErrorMessage (cfg : Config) (keyParam url : String) (code : Nat)
    (reason : String) : String :=
  let instructions := if code = 401 ∨ code = 403 then authorization_instructions cfg keyParam else ""
  "HTTP " ++ toString code ++ " calling " ++ url ++ ": " ++ reason ++ "." ++ instructions

/-- The message built for `urllib.error.URLError` (transport failure). -/
def unreachableMessage (reason : String) : String :=
  "Unable to reach Trello: " ++ reason

/-- The `try`/`except` tail of `trello_request`: map the exchange outcome
to the returned JSON text or a raised `TrelloError`. -/
def handle_response (cfg : Config) (keyParam url : String) :
    HttpOutcome → Except String String
  | .success body => .ok body
  | .httpError code reason => .error (httpErrorMessage cfg keyParam url code reason)
  | .urlError reason => .error (unreachableMessage reason)

/-- `a` is an initial segment of `b` (character lists). -/
def leads : List Char → List Char → Bool
  | [], _ => true
  | _ :: _, [] => false
  | a :: as, b :: bs => a == b && leads as bs

/-- `a` occurs as a contiguous segment of `b` (character lists). -/
def occursIn (a : List Char) : List Char → Bool
  | [] => a.isEmpty
  | b :: bs => leads a (b :: bs) || occursIn a bs

/-- `needle` occurs as a contiguous substring of `hay`. -/
def strOccurs (needle hay : String) : Bool :=
  occursIn needle.data hay.data

/-! ### Model of `manage_card.py` -/

/-- An API request issued by `manage_card.py` through `trello_post` /
`trello_put`, before credential injection: method, path, caller params
and file fields. -/
structure Req where
  method : String
  path : String
  params : List (String × String)
  files : List (String × FileSpec)

/-- The ambient system `manage_card.py` interacts with: the filesystem
(`Path.is_file`, `Path.expanduser`, `Path.read_bytes`,
`mimetypes.guess_type`) and the remote API (the outcome of each
`trello_post`/`trello_put` call). -/
structure Sys where
  isFile : String → Bool
  expand : String → String
  readBytes : String → String
  guessType : String → String
  api : Req → Except String Unit

/-- `Path(p).name`: the final path component. -/
def basename (p : String) : String :=
  (p.splitOn "/").reverse.headD ""

/-- Parsed CLI arguments of `manage_card.py` (`--card`, `--comment`,
repeatable `--attachment`, `--complete`); an absent option is `none` /
`[]` / `false`. -/
structure Args where
  card : String
  comment : Option String
  attachment : List String
  complete : Bool

/-- Python truthiness of `args.comment` (`None` and `""` are falsy). -/
def commentTruthy : Option String → Bool
  | none => false
  | some s => !(s == "")

/-- `validate_attachments` from `manage_card.py`: expand each path, fail
on the first one that is not a regular file (message built from the raw
argument), otherwise return all expanded paths. -/
def validate_attachments (sys : Sys) : List String → Except String (List String)
  | [] => .ok []
  | p :: rest =>
    let ep := sys.expand p
    if sys.isFile ep then
      match validate_attachments sys rest with
      | .error e => .error e
      | .ok v => .ok (ep :: v)
    else .error ("Attachment not found or not a file: " ++ p)

/-- `add_comment` from `manage_card.py` (the request it posts). -/
def add_comment (card text : String) : Req :=
  { method := "POST", path := "/cards/" ++ card ++ "/actions/comments",
    params := [("text", text)], files := [] }

/-- `upload_attachment` from `manage_card.py` (the request it posts). -/
def upload_attachment (sys : Sys) (card p : String) : Req :=
  { method := "POST", path := "/cards/" ++ card ++ "/attachments",
    params := [("name", basename p)],
    files := [("file", (basename p, sys.readBytes p, sys.guessType p))] }

/-- `mark_complete` from `manage_card.py` (the request it puts): the
`dueComplete` parameter is bound to the string `"true"`. -/
def mark_complete (card : String) : Req :=
  { method := "PUT", path := "/cards/" ++ card,
    params := [("dueComplete", "true")], files := [] }

/-- The upload loop of `main`: issue one attachment request per validated
path, recording the status line after each success and stopping at the
first failure.  Returns (status lines appended, requests issued, error). -/
def uploadLoop (sys : Sys) (card : String) :
    List String → List String × List Req × Option String
  | [] => ([], [], none)
  | p :: rest =>
    let req := upload_attachment sys card p
    match sys.api req with
    | .error e => ([], [req], some e)
    | .ok _ =>
      let (ps, rs, e) := uploadLoop sys card rest
      (("Uploaded " ++ basename p ++ ".") :: ps, req :: rs, e)

/-- The `try` block of `main` in `manage_card.py`: comment, then
attachments, then mark-complete, in sequence, stopping at the first
`TrelloError`/`FileNotFoundError`.  Returns the accumulated
`actions_performed` list, the requests issued, and the error if any. -/
def manage_run (sys : Sys) (args : Args) : List String × List Req × Option String :=
  let step1 : List String × List Req × Option String :=
    if commentTruthy args.comment then
      let req := add_comment args.card (args.comment.getD "")
      match sys.api req with
      | .ok _ => (["Comment added."], [req], none)
      | .error e => ([], [req], some e)
    else ([], [], none)
  match step1 with
  | (p1, r1, some e) => (p1, r1, some e)
  | (p1, r1, none) =>
    let step2 : List String × List Req × Option String :=
      if !args.attachment.isEmpty then
        match validate_attachments sys args.attachment with
        | .error e => ([], [], some e)
        | .ok paths => uploadLoop sys args.card paths
      else ([], [], none)
    match step2 with
    | (p2, r2, some e) => (p1 ++ p2, r1 ++ r2, some e)
    | (p2, r2, none) =>
      if args.complete then
        let req := mark_complete args.card
        match sys.api req with
        | .ok _ => (p1 ++ p2 ++ ["Card marked complete."], r1 ++ r2 ++ [req], none)
        | .error e => (p1 ++ p2, r1 ++ r2 ++ [req], some e)
      else (p1 ++ p2, r1 ++ r2, none)

/-- Observable outcome of one invocation of `manage_card.py`. -/
structure RunResult where
  exitCode : Nat
  stdout : List String
  stderr : List String
  requests : List Req

/-- The usage message `main` prints when no action flag is given. -/
def usageMsg : String :=
  "Specify at least one action: --comment, --attachment, or --complete."

/-- `main` from `manage_card.py`: reject an empty action set; otherwise
run the actions, and only when every action succeeded print one
`- <status>` line per performed action; on an error print it to stderr
and exit 1 without printing any status line. -/
def manage_main (sys : Sys) (args : Args) : RunResult :=
  if !(commentTruthy args.comment || !args.attachment.isEmpty || args.complete) then
    { exitCode := 1, stdout := [], stderr := [usageMsg], requests := [] }
  else
    match manage_run sys args with
    | (_, reqs, some e) => { exitCode := 1, stdout := [], stderr := [e], requests := reqs }
    | (performed, reqs, none) =>
      { exitCode := 0, stdout := performed.map (fun a => "- " ++ a), stderr := [],
        requests := reqs }

/-- Concatenation of a list of strings (specification-side helper for
decomposing the multipart body into its parts). -/
def sjoin : List String → String
  | [] => ""
  | s :: r => s ++ sjoin r

/-- The byte run `_encode_multipart_formdata` appends for one scalar
field. -/
def scalarPart (b : String) (p : String × String) : String :=
  "--" ++ b ++ "\r\n" ++
  "Content-Disposition: form-data; name=\"" ++ p.1 ++ "\"\r\n\r\n" ++
  p.2 ++ "\r\n"

/-- The byte run `_encode_multipart_formdata` appends for one file
field. -/
def filePart (b : String) (f : String × FileSpec) : String :=
  "--" ++ b ++ "\r\n" ++
  "Content-Disposition: form-data; name=\"" ++ f.1 ++ "\"; filename=\"" ++ f.2.1 ++ "\"\r\n" ++
  "Content-Type: " ++ f.2.2.2 ++ "\r\n\r\n" ++
  f.2.2.1 ++ "\r\n"

/-- The first attachment argument whose expanded path is not a regular
file, in CLI order. -/
def firstMissing (sys : Sys) : List String → Option String
  | [] => none
  | p :: r => if sys.isFile (sys.expand p) then firstMissing sys r else some p

/-! ### Concrete scenarios used by witnesses and counterexamples -/

/-- Configuration imported with no override variables set (the
defaults). -/
def cfgD : Config := importModule (fun _ => none)

/-- Environment holding only the two credentials. -/
def env2 : Env := fun k =>
  if k = "TRELLO_API_KEY" then some "k"
  else if k = "TRELLO_TOKEN" then some "t" else none

/-- Environment with credentials and base URL `https://a.example/`. -/
def envA : Env := fun k =>
  if k = "TRELLO_API_BASE_URL" then some "https://a.example/" else env2 k

/-- Environment with credentials and base URL `https://b.example/`. -/
def envB : Env := fun k =>
  if k = "TRELLO_API_BASE_URL" then some "https://b.example/" else env2 k

/-- Environment with no credentials at all. -/
def envNoKey : Env := fun _ => none

/-- Environment with an API key but no token. -/
def envKeyOnly : Env := fun k => if k = "TRELLO_API_KEY" then some "k" else none

/-- A system where every path is a regular file and exactly the
attachment-upload call on card `c1` fails. -/
def sysC3 : Sys :=
  { isFile := fun _ => true, expand := fun p => p, readBytes := fun _ => "DATA",
    guessType := fun _ => "text/plain",
    api := fun r =>
      if r.path = "/cards/c1/attachments" then
        .error "HTTP 500 calling https://api.trello.com/1/cards/c1/attachments: Server Error."
      else .ok () }

/-- Arguments requesting a comment and one attachment on card `c1`. -/
def argsC3 : Args := { card := "c1", comment := some "hi", attachment := ["f"], complete := false }

/-- A system where no path is a regular file and the API always
succeeds. -/
def sysW10 : Sys :=
  { isFile := fun _ => false, expand := fun p => p, readBytes := fun _ => "",
    guessType := fun _ => "", api := fun _ => .ok () }

/-- Arguments requesting only the upload of attachment `x`. -/
def argsW10 : Args := { card := "c", comment := none, attachment := ["x"], complete := false }

/-! ### String helper lemmas -/

theorem str_ext {a b : String} (h : a.data = b.data) : a = b := by
  cases a; cases b; cases h; rfl

theorem str_data_append (a b : String) : (a ++ b).data = a.data ++ b.data := rfl

theorem str_append_assoc (a b c : String) : a ++ b ++ c = a ++ (b ++ c) :=
  str_ext (by simp [str_data_append])

theorem str_append_empty (a : String) : a ++ "" = a :=
  str_ext (by simp [str_data_append])

theorem leads_append (a r : List Char) : leads a (a ++ r) = true := by
  induction a with
  | nil => rfl
  | cons x xs ih => simp [leads, ih]

theorem occursIn_pre (a r : List Char) : occursIn a (a ++ r) = true := by
  cases a with
  | nil => cases r with
    | nil => rfl
    | cons y ys => simp [occursIn, leads]
  | cons x xs =>
    have h : leads (x :: xs) (x :: (xs ++ r)) = true := leads_append (x :: xs) r
    simp [occursIn, h]

theorem occursIn_append_left (x : List Char) {a y : List Char}
    (h : occursIn a y = true) : occursIn a (x ++ y) = true := by
  induction x with
  | nil => simpa using h
  | cons c cs ih => simp [occursIn, ih]

theorem occursIn_self (a : List Char) : occursIn a a = true := by
  simpa using occursIn_pre a []

theorem strOccurs_pre (n q : String) : strOccurs n (n ++ q) = true := by
  unfold strOccurs
  rw [str_data_append]
  exact occursIn_pre _ _

theorem strOccurs_self (n : String) : strOccurs n n = true := occursIn_self _

theorem strOccurs_right (x : String) {n y : String} (h : strOccurs n y = true) :
    strOccurs n (x ++ y) = true := by
  unfold strOccurs at *
  rw [str_data_append]
  exact occursIn_append_left _ h

theorem strOccurs_mid (p n q : String) : strOccurs n (p ++ n ++ q) = true := by
  rw [str_append_assoc]
  exact strOccurs_right p (strOccurs_pre n q)

/-! ### Association-list lemmas for `dictInsert` -/

theorem mem_dictInsert_self (l : List (String × String)) (k v : String) :
    (k, v) ∈ dictInsert l k v := by
  induction l with
  | nil => simp [dictInsert]
  | cons p rest ih =>
    by_cases h : p.1 = k
    · simp [dictInsert, h]
    · simp only [dictInsert, if_neg h]
      exact List.mem_cons_of_mem p ih

theorem mem_dictInsert_of_ne {l : List (String × String)} {p : String × String}
    (hp : p ∈ l) {k : String} (hk : ¬p.1 = k) (v : String) : p ∈ dictInsert l k v := by
  induction l with
  | nil => cases hp
  | cons q rest ih =>
    by_cases h : q.1 = k
    · simp only [dictInsert, if_pos h]
      rcases List.mem_cons.mp hp with rfl | hmem
      · exact absurd h hk
      · exact List.mem_cons_of_mem _ hmem
    · simp only [dictInsert, if_neg h]
      rcases List.mem_cons.mp hp with rfl | hmem
      · exact List.mem_cons_self _ _
      · exact List.mem_cons_of_mem _ (ih hmem)

theorem lookup_dictInsert_self (l : List (String × String)) (k v : String) :
    (dictInsert l k v).lookup k = some v := by
  induction l with
  | nil => simp [dictInsert, List.lookup]
  | cons p rest ih =>
    by_cases h : p.1 = k
    · simp [dictInsert, h, List.lookup]
    · simp only [dictInsert, if_neg h, List.lookup]
      have : (k == p.1) = false := by
        simp only [beq_eq_false_iff_ne, ne_eq]
        exact fun hkp => h hkp.symm
      rw [this]
      exact ih

theorem lookup_dictInsert_ne {k' k : String} (h : ¬k' = k)
    (l : List (String × String)) (v : String) :
    (dictInsert l k v).lookup k' = l.lookup k' := by
  induction l with
  | nil =>
    simp only [dictInsert, List.lookup]
    have : (k' == k) = false := by simpa using h
    rw [this]
  | cons p rest ih =>
    by_cases hp : p.1 = k
    · simp only [dictInsert, if_pos hp, List.lookup]
      have h1 : (k' == k) = false := by simpa using h
      have h2 : (k' == p.1) = false := by
        simp only [beq_eq_false_iff_ne, ne_eq]
        intro hkp
        exact h (hkp.trans hp)
      rw [h1, h2]
    · simp only [dictInsert, if_neg hp, List.lookup]
      cases hkp : (k' == p.1) with
      | true => rfl
      | false => exact ih

theorem filter_dictInsert (l : List (String × String)) (k v : String)
    (q : String × String → Bool) (hq : ∀ x, q (k, x) = false) :
    (dictInsert l k v).filter q = l.filter q := by
  induction l with
  | nil => simp [dictInsert, List.filter, hq]
  | cons p rest ih =>
    by_cases h : p.1 = k
    · have hqp : q p = false := by
        subst h
        exact hq p.2
      simp [dictInsert, h, List.filter, hq, hqp]
    · simp only [dictInsert, if_neg h, List.filter]
      rw [ih]

/-- Successful credential resolution: `build_auth_params` injects the
key and the token into a copy of the caller's mapping. -/
theorem build_auth_params_eq (cfg : Config) (env : Env)
    (extra : List (String × String)) {K T : String}
    (hK : env "TRELLO_API_KEY" = some K) (hK0 : ¬K = "")
    (hT : env "TRELLO_TOKEN" = some T) (hT0 : ¬T = "") :
    build_auth_params cfg env extra = .ok (dictInsert (dictInsert extra "key" K) "token" T) := by
  unfold build_auth_params require_api_key require_token
  rw [hK, hT]
  simp [hK0, hT0]

/-! ### Multipart encoder decomposition -/

theorem encodeFieldsLoop_eq (b : String) (l : List (String × String)) :
    ∀ buf, encodeFieldsLoop b buf l = buf ++ sjoin (l.map (scalarPart b)) := by
  induction l with
  | nil => intro buf; simp [encodeFieldsLoop, sjoin, str_append_empty]
  | cons p rest ih =>
    intro buf
    obtain ⟨n, v⟩ := p
    rw [show encodeFieldsLoop b buf ((n, v) :: rest) =
        encodeFieldsLoop b
          (buf ++ "--" ++ b ++ "\r\n" ++
           "Content-Disposition: form-data; name=\"" ++ n ++ "\"\r\n\r\n" ++
           v ++ "\r\n") rest from rfl]
    rw [ih]
    simp [sjoin, scalarPart, str_append_assoc]

theorem encodeFilesLoop_eq (b : String) (l : List (String × FileSpec)) :
    ∀ buf, encodeFilesLoop b buf l = buf ++ sjoin (l.map (filePart b)) := by
  induction l with
  | nil => intro buf; simp [encodeFilesLoop, sjoin, str_append_empty]
  | cons p rest ih =>
    intro buf
    obtain ⟨n, fn, data, ct⟩ := p
    rw [show encodeFilesLoop b buf ((n, (fn, data, ct)) :: rest) =
        encodeFilesLoop b
          (buf ++ "--" ++ b ++ "\r\n" ++
           "Content-Disposition: form-data; name=\"" ++ n ++ "\"; filename=\"" ++ fn ++ "\"\r\n" ++
           "Content-Type: " ++ ct ++ "\r\n\r\n" ++
           data ++ "\r\n") rest from rfl]
    rw [ih]
    simp [sjoin, filePart, str_append_assoc]

/-! ### Claim C7: configuration caching -/

/-- C7 counterexample.  The module is imported while
`TRELLO_API_BASE_URL` is `https://a.example/`; the environment is then
changed to `https://b.example/` and a call is made with that changed
environment in effect.  The call still targets `https://a.example`, and
the new base URL appears nowhere in the request, refuting the claim that
changing the variable between calls changes the later call. -/
theorem base_url_read_at_call_time_counterexample :
    trello_request (importModule envA) envB "GET" "/x" [] [] "b" =
      .ok { url := "https://a.example/x?key=k&token=t", method := "GET",
            body := none, headers := [] } ∧
    envB "TRELLO_API_BASE_URL" = some "https://b.example/" ∧
    strOccurs "https://b.example" "https://a.example/x?key=k&token=t" = false ∧
    ¬(importModule envB).baseUrl = (importModule envA).baseUrl := by
  refine ⟨rfl, rfl, rfl, ?_⟩
  intro h
  exact absurd (congrArg String.data h) (by decide)

/-- C7 amended: the base-URL and scope overrides are read once at
module-import time and captured in `Config`; a call reads the environment only for
the two credential variables, so two calls whose environments agree on
the credentials behave identically however the override variables
changed in between. -/
theorem config_cached_at_import (cfg : Config) (env env' : Env)
    (method path b : String) (params : List (String × String))
    (files : List (String × FileSpec))
    (hK : env "TRELLO_API_KEY" = env' "TRELLO_API_KEY")
    (hT : env "TRELLO_TOKEN" = env' "TRELLO_TOKEN") :
    trello_request cfg env method path params files b =
      trello_request cfg env' method path params files b := by
  unfold trello_request build_auth_params require_api_key require_token
  rw [hK, hT]

/-- C7 amended witness: under import-time config from `envA`, a call with
current environment `envB` equals the call with environment `envA`. -/
theorem config_cached_at_import_witness :
    trello_request (importModule envA) envB "GET" "/x" [] [] "b" =
      trello_request (importModule envA) envA "GET" "/x" [] [] "b" :=
  config_cached_at_import (importModule envA) envB envA "GET" "/x" "b" [] [] rfl rfl

/-! ### Claim C8: mark-complete sends the string "true" -/

/-- C8: `mark_complete` issues a PUT to the card path with the parameter
`dueComplete` bound to the string `"true"`, and the prepared request body
carries `dueComplete=true`. -/
theorem mark_complete_sends_string_true (cfg : Config) (env : Env) (card b : String)
    {K T : String}
    (hK : env "TRELLO_API_KEY" = some K) (hK0 : ¬K = "")
    (hT : env "TRELLO_TOKEN" = some T) (hT0 : ¬T = "") :
    (mark_complete card).method = "PUT" ∧
    (mark_complete card).path = "/cards/" ++ card ∧
    (mark_complete card).params.lookup "dueComplete" = some "true" ∧
    ∃ r, trello_request cfg env (mark_complete card).method (mark_complete card).path
        (mark_complete card).params [] b = .ok r ∧
      r.method = "PUT" ∧ strOccurs "dueComplete=true" (r.body.getD "") = true := by
  refine ⟨rfl, rfl, rfl, ?_⟩
  rw [show (mark_complete card).params = [("dueComplete", "true")] from rfl,
      show (mark_complete card).method = "PUT" from rfl,
      show (mark_complete card).path = "/cards/" ++ card from rfl]
  unfold trello_request
  rw [build_auth_params_eq cfg env _ hK hK0 hT hT0]
  refine ⟨_, rfl, rfl, ?_⟩
  rw [show dictInsert (dictInsert [("dueComplete", "true")] "key" K) "token" T =
      [("dueComplete", "true"), ("key", K), ("token", T)] from rfl]
  rw [show urlencode [("dueComplete", "true"), ("key", K), ("token", T)] =
      encPair ("dueComplete", "true") ++ "&" ++ urlencode [("key", K), ("token", T)] from rfl]
  rw [show encPair ("dueComplete", "true") = "dueComplete=true" from rfl]
  rw [str_append_assoc]
  exact strOccurs_pre _ _

/-- C8 witness at concrete inputs. -/
theorem mark_complete_sends_string_true_witness :
    (mark_complete "c1").method = "PUT" ∧
    (mark_complete "c1").path = "/cards/" ++ "c1" ∧
    (mark_complete "c1").params.lookup "dueComplete" = some "true" ∧
    ∃ r, trello_request cfgD env2 (mark_complete "c1").method (mark_complete "c1").path
        (mark_complete "c1").params [] "b" = .ok r ∧
      r.method = "PUT" ∧ strOccurs "dueComplete=true" (r.body.getD "") = true :=
  mark_complete_sends_string_true cfgD env2 "c1" "b" rfl (by decide) rfl (by decide)

/-! ### Claim C9: credential injection frame -/

/-- C9: credential injection binds `key` and `token` to the
environment-supplied credentials, overwriting caller-supplied values
under those names, and leaves every other entry untouched in name, value
and relative order (the filtered sublists are equal). -/
theorem build_auth_params_frame (cfg : Config) (env : Env)
    (extra : List (String × String)) {K T : String}
    (hK : env "TRELLO_API_KEY" = some K) (hK0 : ¬K = "")
    (hT : env "TRELLO_TOKEN" = some T) (hT0 : ¬T = "") :
    ∃ l, build_auth_params cfg env extra = .ok l ∧
      l.lookup "key" = some K ∧
      l.lookup "token" = some T ∧
      l.filter (fun p => !(p.1 == "key" || p.1 == "token")) =
        extra.filter (fun p => !(p.1 == "key" || p.1 == "token")) := by
  refine ⟨_, build_auth_params_eq cfg env extra hK hK0 hT hT0, ?_, ?_, ?_⟩
  · rw [lookup_dictInsert_ne (by decide) _ T]
    exact lookup_dictInsert_self _ _ _
  · exact lookup_dictInsert_self _ _ _
  · rw [filter_dictInsert _ "token" T _ (fun x => rfl),
        filter_dictInsert _ "key" K _ (fun x => rfl)]

/-- C9 witness: a caller-supplied `key` entry is overwritten while the
other entry survives unchanged. -/
theorem build_auth_params_frame_witness :
    ∃ l, build_auth_params cfgD env2 [("a", "1"), ("key", "evil")] = .ok l ∧
      l.lookup "key" = some "k" ∧
      l.lookup "token" = some "t" ∧
      l.filter (fun p => !(p.1 == "key" || p.1 == "token")) =
        [("a", "1"), ("key", "evil")].filter (fun p => !(p.1 == "key" || p.1 == "token")) :=
  build_auth_params_frame cfgD env2 [("a", "1"), ("key", "evil")] rfl (by decide) rfl (by decide)

/-! ### Claim C3: status lines on failing multi-action runs -/

/-- C3 counterexample.  A run requesting a comment and one attachment on
card `c1`, where the comment call succeeds and the attachment call
fails: the script stops at the failure (exit 1) but prints NO status
line, even though the comment action succeeded before the failing step
(witness the accumulated `actions_performed` list and both issued
requests).  This refutes "has already printed one status line for each
action that succeeded before the failing step". -/
theorem manage_statuslines_counterexample :
    manage_run sysC3 argsC3 =
      (["Comment added."],
       [add_comment "c1" "hi", upload_attachment sysC3 "c1" "f"],
       some "HTTP 500 calling https://api.trello.com/1/cards/c1/attachments: Server Error.") ∧
    (manage_main sysC3 argsC3).exitCode = 1 ∧
    (manage_main sysC3 argsC3).stdout = [] :=
  ⟨rfl, rfl, rfl⟩

/-- C3 amended: when one of the sequential actions fails, the script
stops at that failure, printing exactly the error to stderr and exiting
non-zero, and prints no status line at all — successes performed before
the failing step are not reported. -/
theorem manage_failure_prints_no_status (sys : Sys) (args : Args)
    (h : ¬(manage_main sys args).exitCode = 0) :
    (manage_main sys args).stdout = [] ∧ ∃ m, (manage_main sys args).stderr = [m] := by
  cases hX : (commentTruthy args.comment || !args.attachment.isEmpty || args.complete) with
  | false =>
    refine ⟨?_, usageMsg, ?_⟩ <;> simp [manage_main, hX]
  | true =>
    rcases hq : manage_run sys args with ⟨p, rq, e⟩
    cases e with
    | none =>
      exact absurd (by simp [manage_main, hX, hq]) h
    | some m =>
      refine ⟨?_, m, ?_⟩ <;> simp [manage_main, hX, hq]

/-- C3 amended witness on the concrete failing scenario. -/
theorem manage_failure_prints_no_status_witness :
    (manage_main sysC3 argsC3).stdout = [] ∧ ∃ m, (manage_main sysC3 argsC3).stderr = [m] :=
  manage_failure_prints_no_status sysC3 argsC3 (by decide)

/-! ### Claim C10: attachment validation precedes every upload -/

/-- If some attachment path is missing, `validate_attachments` fails
with the file-not-found message for the first missing path. -/
theorem validate_firstMissing {sys : Sys} :
    ∀ {paths : List String} {p : String}, firstMissing sys paths = some p →
      validate_attachments sys paths = .error ("Attachment not found or not a file: " ++ p) := by
  intro paths
  induction paths with
  | nil => intro p h; cases h
  | cons q rest ih =>
    intro p h
    by_cases hf : sys.isFile (sys.expand q)
    · rw [show firstMissing sys (q :: rest) =
          (if sys.isFile (sys.expand q) then firstMissing sys rest else some q) from rfl,
        if_pos hf] at h
      unfold validate_attachments
      rw [if_pos hf, ih h]
    · rw [show firstMissing sys (q :: rest) =
          (if sys.isFile (sys.expand q) then firstMissing sys rest else some q) from rfl,
        if_neg hf] at h
      cases h
      unfold validate_attachments
      rw [if_neg hf]

/-- C10: all attachment paths are validated before any upload request is
issued: if some listed path is not a regular file (and the earlier
comment step, when requested, does not itself fail), the script exits 1
with the caller-level file-not-found error for the first missing path,
and no issued request carries a file — zero attachments were uploaded. -/
theorem validate_before_upload (sys : Sys) (args : Args) {p : String}
    (hm : firstMissing sys args.attachment = some p)
    (hc : ∀ c, args.comment = some c → sys.api (add_comment args.card c) = .ok ()) :
    (manage_main sys args).exitCode = 1 ∧
    (manage_main sys args).stderr = ["Attachment not found or not a file: " ++ p] ∧
    (manage_main sys args).requests.all (fun q => q.files.isEmpty) = true := by
  have hne : args.attachment.isEmpty = false := by
    cases harg : args.attachment with
    | nil => rw [harg] at hm; cases hm
    | cons a l => rfl
  have hval := validate_firstMissing hm
  cases hcomm : args.comment with
  | none =>
    have hrun : manage_run sys args =
        ([], [], some ("Attachment not found or not a file: " ++ p)) := by
      unfold manage_run
      simp [commentTruthy, hcomm, hne, hval]
    refine ⟨?_, ?_, ?_⟩ <;> simp [manage_main, hrun, commentTruthy, hcomm, hne]
  | some c =>
    by_cases hce : c = ""
    · have hrun : manage_run sys args =
          ([], [], some ("Attachment not found or not a file: " ++ p)) := by
        unfold manage_run
        simp [commentTruthy, hcomm, hce, hne, hval]
      refine ⟨?_, ?_, ?_⟩ <;> simp [manage_main, hrun, commentTruthy, hcomm, hce, hne]
    · have hapi := hc c hcomm
      have hrun : manage_run sys args =
          (["Comment added."], [add_comment args.card c],
           some ("Attachment not found or not a file: " ++ p)) := by
        unfold manage_run
        simp [commentTruthy, hcomm, hce, hapi, hne, hval]
      refine ⟨?_, ?_, ?_⟩ <;>
        simp [manage_main, hrun, commentTruthy, hcomm, hce, hne, add_comment]

/-- C10 witness: one missing attachment, no other action requested. -/
theorem validate_before_upload_witness :
    (manage_main sysW10 argsW10).exitCode = 1 ∧
    (manage_main sysW10 argsW10).stderr = ["Attachment not found or not a file: " ++ "x"] ∧
    (manage_main sysW10 argsW10).requests.all (fun q => q.files.isEmpty) = true :=
  validate_before_upload sysW10 argsW10 rfl (fun _ hcc => Option.noConfusion hcc)

/-! ### Claim C1: credential resolution fails fast -/

/-- The authorization URL carries exactly the five query parameters
`key`, `scope`, `expiration=never`, `name` and `response_type=token`,
URL-encoded (`read,write` → `read%2Cwrite`, spaces → `+`). -/
theorem authorization_url_query (cfg : Config) (K : String) :
    authorization_url cfg K = "https://trello.com/1/authorize?key=" ++ (quotePlus K ++
      ("&scope=" ++ (quotePlus cfg.authScope ++
        "&expiration=never&name=Codex+Trello+Access&response_type=token"))) := by
  apply str_ext
  simp only [authorization_url, AUTHORIZATION_BASE, AUTH_EXPIRATION, AUTH_NAME, urlencode,
    encPair, str_data_append, List.append_assoc]
  rfl

/-- C1: with the key unset or empty every call fails before any request
exists, with the exact "not configured" message; with the key present
but the token unset or empty, every call fails with a message containing
the authorization URL, whose query parameters are exactly the key, the
configured scope, `expiration=never`, the fixed application name, and
`response_type=token`. -/
theorem credentials_fail_fast (cfg : Config) (env : Env) (method path b : String)
    (params : List (String × String)) (files : List (String × FileSpec)) :
    ((env "TRELLO_API_KEY" = none ∨ env "TRELLO_API_KEY" = some "") →
      trello_request cfg env method path params files b = .error keyMissingMsg ∧
      strOccurs "TRELLO_API_KEY is not configured" keyMissingMsg = true) ∧
    (∀ K, env "TRELLO_API_KEY" = some K → ¬K = "" →
      (env "TRELLO_TOKEN" = none ∨ env "TRELLO_TOKEN" = some "") →
      trello_request cfg env method path params files b = .error (tokenMissingMsg cfg K) ∧
      strOccurs "TRELLO_TOKEN is not configured" (tokenMissingMsg cfg K) = true ∧
      strOccurs (authorization_url cfg K) (tokenMissingMsg cfg K) = true ∧
      authorization_url cfg K = "https://trello.com/1/authorize?key=" ++ (quotePlus K ++
        ("&scope=" ++ (quotePlus cfg.authScope ++
          "&expiration=never&name=Codex+Trello+Access&response_type=token")))) := by
  constructor
  · intro h
    refine ⟨?_, rfl⟩
    unfold trello_request build_auth_params require_api_key
    rcases h with h | h
    · rw [h]
    · rw [h]
      rfl
  · intro K hK hK0 hT
    refine ⟨?_, ?_, ?_, authorization_url_query cfg K⟩
    · unfold trello_request build_auth_params require_api_key require_token
      rw [hK]
      rcases hT with h | h <;> rw [h] <;> simp [hK0]
    · exact strOccurs_pre "TRELLO_TOKEN is not configured" _
    · rw [show tokenMissingMsg cfg K =
          ("TRELLO_TOKEN is not configured. The helper can build an authorization link " ++
           "so you can create one." ++
           " To grant access, open the following link while signed in as a board member, " ++
           "approve the addon, and set TRELLO_TOKEN to the token Trello returns: ") ++
          authorization_url cfg K from by
        apply str_ext
        simp only [tokenMissingMsg, authorization_instructions, str_data_append,
          List.append_assoc]]
      exact strOccurs_right _ (strOccurs_self _)

/-- C1 witness: missing key (unset) and missing token, at concrete
inputs. -/
theorem credentials_fail_fast_witness :
    (trello_request cfgD envNoKey "GET" "/x" [] [] "b" = .error keyMissingMsg ∧
      strOccurs "TRELLO_API_KEY is not configured" keyMissingMsg = true) ∧
    (trello_request cfgD envKeyOnly "GET" "/x" [] [] "b" = .error (tokenMissingMsg cfgD "k") ∧
      strOccurs "TRELLO_TOKEN is not configured" (tokenMissingMsg cfgD "k") = true ∧
      strOccurs (authorization_url cfgD "k") (tokenMissingMsg cfgD "k") = true ∧
      authorization_url cfgD "k" = "https://trello.com/1/authorize?key=" ++ (quotePlus "k" ++
        ("&scope=" ++ (quotePlus cfgD.authScope ++
          "&expiration=never&name=Codex+Trello+Access&response_type=token")))) :=
  ⟨(credentials_fail_fast cfgD envNoKey "GET" "/x" "b" [] []).1 (Or.inl rfl),
   (credentials_fail_fast cfgD envKeyOnly "GET" "/x" "b" [] []).2 "k" rfl (by decide)
     (Or.inl rfl)⟩

/-! ### Claim C2: the POST /cards scenario body -/

/-- C2 counterexample.  For method=POST, path=/cards,
params=(name=Test, idList=abc), no files, the produced body is NOT
`name=Test&idList=abc`: the client injects the credentials, so the body
is `name=Test&idList=abc&key=k&token=t` (here with key `k`, token `t`). -/
theorem post_cards_body_counterexample :
    trello_request cfgD env2 "POST" "/cards" [("name", "Test"), ("idList", "abc")] [] "b" =
      .ok { url := "https://api.trello.com/1/cards", method := "POST",
            body := some "name=Test&idList=abc&key=k&token=t",
            headers := [("Content-Type", "application/x-www-form-urlencoded")] } ∧
    ¬some "name=Test&idList=abc&key=k&token=t" = some "name=Test&idList=abc" :=
  ⟨rfl, by decide⟩

/-- C2 amended: for that call the produced body is exactly the
URL-encoded caller parameters followed by the injected credentials,
`name=Test&idList=abc&key=<key>&token=<token>`, and the Content-Type
header is `application/x-www-form-urlencoded`. -/
theorem post_cards_body_amended (cfg : Config) (env : Env) (b : String) {K T : String}
    (hK : env "TRELLO_API_KEY" = some K) (hK0 : ¬K = "")
    (hT : env "TRELLO_TOKEN" = some T) (hT0 : ¬T = "") :
    ∃ r, trello_request cfg env "POST" "/cards" [("name", "Test"), ("idList", "abc")] [] b =
        .ok r ∧
      r.body = some ("name=Test&idList=abc&key=" ++ (quotePlus K ++ ("&token=" ++ quotePlus T))) ∧
      r.headers = [("Content-Type", "application/x-www-form-urlencoded")] := by
  unfold trello_request
  rw [build_auth_params_eq cfg env _ hK hK0 hT hT0]
  refine ⟨_, rfl, ?_, rfl⟩
  rw [show dictInsert (dictInsert [("name", "Test"), ("idList", "abc")] "key" K) "token" T =
      [("name", "Test"), ("idList", "abc"), ("key", K), ("token", T)] from rfl]
  refine congrArg some ?_
  apply str_ext
  simp only [urlencode, encPair, str_data_append, List.append_assoc]
  rfl

/-- C2 amended witness with concrete credentials. -/
theorem post_cards_body_amended_witness :
    ∃ r, trello_request cfgD env2 "POST" "/cards" [("name", "Test"), ("idList", "abc")] [] "b" =
        .ok r ∧
      r.body = some ("name=Test&idList=abc&key=" ++
        (quotePlus "k" ++ ("&token=" ++ quotePlus "t"))) ∧
      r.headers = [("Content-Type", "application/x-www-form-urlencoded")] :=
  post_cards_body_amended cfgD env2 "b" rfl (by decide) rfl (by decide)

/-! ### Claim C5: GET encoding -/

/-- Each pair of the mapping appears URL-encoded in the
`urlencode` output. -/
theorem encPair_occurs_urlencode {p : String × String} :
    ∀ {l : List (String × String)}, p ∈ l → strOccurs (encPair p) (urlencode l) = true := by
  intro l
  induction l with
  | nil => intro h; cases h
  | cons q rest ih =>
    intro h
    cases rest with
    | nil =>
      rcases List.mem_cons.mp h with rfl | hm
      · exact strOccurs_self _
      · cases hm
    | cons q2 rest2 =>
      rcases List.mem_cons.mp h with rfl | hm
      · rw [show urlencode (p :: q2 :: rest2) =
            encPair p ++ "&" ++ urlencode (q2 :: rest2) from rfl, str_append_assoc]
        exact strOccurs_pre _ _
      · rw [show urlencode (q :: q2 :: rest2) =
            encPair q ++ "&" ++ urlencode (q2 :: rest2) from rfl, str_append_assoc]
        exact strOccurs_right _ (strOccurs_right "&" (ih hm))

/-- C5 counterexample.  With credentials key=`k`, token=`t` in the
environment, a GET with the caller-supplied parameter `key=evil` yields
a query containing only the injected `key=k` and `token=t`: the encoded
pair of the supplied parameter occurs nowhere in the URL, refuting "a
pair for every supplied parameter". -/
theorem get_query_counterexample :
    trello_request cfgD env2 "GET" "/m" [("key", "evil")] [] "b" =
      .ok { url := "https://api.trello.com/1/m?key=k&token=t", method := "GET",
            body := none, headers := [] } ∧
    strOccurs (encPair ("key", "evil")) "https://api.trello.com/1/m?key=k&token=t" = false :=
  ⟨rfl, rfl⟩

/-- C5 amended: a GET request has no body, and the query string contains
the percent-encoded pair of every supplied parameter other than the
reserved names `key` and `token` (which are overwritten by credential
injection), plus the injected `key` and `token` pairs. -/
theorem get_request_spec (cfg : Config) (env : Env) (path b : String)
    (params : List (String × String)) {K T : String}
    (hK : env "TRELLO_API_KEY" = some K) (hK0 : ¬K = "")
    (hT : env "TRELLO_TOKEN" = some T) (hT0 : ¬T = "") :
    ∃ r, trello_request cfg env "GET" path params [] b = .ok r ∧
      r.body = none ∧ r.headers = [] ∧
      (∀ p ∈ params, ¬p.1 = "key" → ¬p.1 = "token" →
        strOccurs (encPair p) r.url = true) ∧
      strOccurs ("key=" ++ quotePlus K) r.url = true ∧
      strOccurs ("token=" ++ quotePlus T) r.url = true := by
  unfold trello_request
  rw [build_auth_params_eq cfg env _ hK hK0 hT hT0]
  refine ⟨_, rfl, rfl, rfl, ?_, ?_, ?_⟩
  · intro p hp h1 h2
    show strOccurs (encPair p) (cfg.baseUrl ++ path ++ "?" ++
      urlencode (dictInsert (dictInsert params "key" K) "token" T)) = true
    rw [str_append_assoc]
    refine strOccurs_right _ (strOccurs_right "?" (encPair_occurs_urlencode ?_))
    exact mem_dictInsert_of_ne (mem_dictInsert_of_ne hp h1 K) h2 T
  · show strOccurs ("key=" ++ quotePlus K) (cfg.baseUrl ++ path ++ "?" ++
      urlencode (dictInsert (dictInsert params "key" K) "token" T)) = true
    rw [show ("key=" ++ quotePlus K) = encPair ("key", K) from rfl, str_append_assoc]
    refine strOccurs_right _ (strOccurs_right "?" (encPair_occurs_urlencode ?_))
    exact mem_dictInsert_of_ne (mem_dictInsert_self params "key" K)
      (fun h => (by decide : ¬("key" : String) = "token") h) T
  · show strOccurs ("token=" ++ quotePlus T) (cfg.baseUrl ++ path ++ "?" ++
      urlencode (dictInsert (dictInsert params "key" K) "token" T)) = true
    rw [show ("token=" ++ quotePlus T) = encPair ("token", T) from rfl, str_append_assoc]
    exact strOccurs_right _
      (strOccurs_right "?" (encPair_occurs_urlencode (mem_dictInsert_self _ "token" T)))

/-- C5 amended witness at concrete inputs. -/
theorem get_request_spec_witness :
    ∃ r, trello_request cfgD env2 "GET" "/m" [("a", "b c")] [] "b" = .ok r ∧
      r.body = none ∧ r.headers = [] ∧
      (∀ p ∈ [("a", "b c")], ¬p.1 = "key" → ¬p.1 = "token" →
        strOccurs (encPair p) r.url = true) ∧
      strOccurs ("key=" ++ quotePlus "k") r.url = true ∧
      strOccurs ("token=" ++ quotePlus "t") r.url = true :=
  get_request_spec cfgD env2 "/m" "b" [("a", "b c")] rfl (by decide) rfl (by decide)

/-! ### Claim C4: multipart body structure -/

/-- C4: a non-GET call with files produces a body that is exactly one
part per scalar field (the auth-injected parameter list, in order)
followed by one part per file field (in order), terminated by the
closing marker of the same boundary declared in the Content-Type header;
every file part carries a `filename="…"` and a `Content-Type:` header. -/
theorem multipart_structure (cfg : Config) (env : Env) (method path b : String)
    (params : List (String × String)) (files : List (String × FileSpec)) {K T : String}
    (hM : ¬strUpper method = "GET") (hf : ¬files = [])
    (hK : env "TRELLO_API_KEY" = some K) (hK0 : ¬K = "")
    (hT : env "TRELLO_TOKEN" = some T) (hT0 : ¬T = "") :
    ∃ r, trello_request cfg env method path params files b = .ok r ∧
      r.body = some
        (sjoin ((dictInsert (dictInsert params "key" K) "token" T).map (scalarPart b)) ++
         sjoin (files.map (filePart b)) ++ ("--" ++ b ++ "--\r\n")) ∧
      r.headers = [("Content-Type", "multipart/form-data; boundary=" ++ b)] ∧
      ∀ f ∈ files, strOccurs ("filename=\"" ++ f.2.1 ++ "\"") (filePart b f) = true ∧
        strOccurs ("Content-Type: " ++ f.2.2.2) (filePart b f) = true := by
  have hfb : (!files.isEmpty) = true := by
    cases files with
    | nil => exact absurd rfl hf
    | cons a l => rfl
  unfold trello_request
  rw [build_auth_params_eq cfg env _ hK hK0 hT hT0]
  simp only [if_neg hM, if_pos hfb]
  refine ⟨_, rfl, ?_, rfl, ?_⟩
  · refine congrArg some ?_
    show (_encode_multipart_formdata b (dictInsert (dictInsert params "key" K) "token" T)
        files).2 = _
    unfold _encode_multipart_formdata
    rw [encodeFieldsLoop_eq, encodeFilesLoop_eq]
    apply str_ext
    simp only [str_data_append, List.append_assoc]
    rfl
  · intro f hfm
    constructor
    · rw [show filePart b f =
          ("--" ++ b ++ "\r\n" ++ "Content-Disposition: form-data; name=\"" ++ f.1 ++ "\"; ")
            ++ ("filename=\"" ++ f.2.1 ++ "\"")
            ++ ("\r\nContent-Type: " ++ f.2.2.2 ++ "\r\n\r\n" ++ f.2.2.1 ++ "\r\n") from by
        apply str_ext
        simp only [filePart, str_data_append, List.append_assoc]
        try rfl]
      exact strOccurs_mid _ _ _
    · rw [show filePart b f =
          ("--" ++ b ++ "\r\n" ++ "Content-Disposition: form-data; name=\"" ++ f.1
              ++ "\"; filename=\"" ++ f.2.1 ++ "\"\r\n")
            ++ ("Content-Type: " ++ f.2.2.2) ++ ("\r\n\r\n" ++ f.2.2.1 ++ "\r\n") from by
        apply str_ext
        simp only [filePart, str_data_append, List.append_assoc]
        try rfl]
      exact strOccurs_mid _ _ _

/-- Concrete file mapping for the C4 witness. -/
def fileW : List (String × FileSpec) := [("file", ("a.txt", "DATA", "text/plain"))]

/-- C4 witness at concrete inputs (note the lower-case method is
upper-cased before the GET test). -/
theorem multipart_structure_witness :
    ∃ r, trello_request cfgD env2 "post" "/cards/c/attachments" [("name", "a.txt")]
        fileW "BOUND" = .ok r ∧
      r.body = some
        (sjoin ((dictInsert (dictInsert [("name", "a.txt")] "key" "k") "token" "t").map
          (scalarPart "BOUND")) ++
         sjoin (fileW.map (filePart "BOUND")) ++ ("--" ++ "BOUND" ++ "--\r\n")) ∧
      r.headers = [("Content-Type", "multipart/form-data; boundary=" ++ "BOUND")] ∧
      ∀ f ∈ fileW, strOccurs ("filename=\"" ++ f.2.1 ++ "\"") (filePart "BOUND" f) = true ∧
        strOccurs ("Content-Type: " ++ f.2.2.2) (filePart "BOUND" f) = true :=
  multipart_structure cfgD env2 "post" "/cards/c/attachments" "BOUND" [("name", "a.txt")]
    fileW (by decide) (by decide) rfl (by decide) rfl (by decide)

/-! ### Claim C6: HTTP error and transport error messages -/

/-- C6: an HTTP error status maps to a `TrelloError` whose message
contains the status code, the request URL and the reason phrase;
exactly for 401/403 it additionally contains the authorization URL
(via the appended instructions), while for every other status the
message is exactly the plain form with nothing appended; a transport
failure maps to the distinctly-worded unreachability message, which is
never equal to an HTTP-error message. -/
theorem http_error_and_transport_messages (cfg : Config) (keyParam url : String)
    (code : Nat) (reason : String) :
    (∃ m, handle_response cfg keyParam url (.httpError code reason) = .error m ∧
      strOccurs (toString code) m = true ∧
      strOccurs url m = true ∧
      strOccurs reason m = true ∧
      ((code = 401 ∨ code = 403) → strOccurs (authorization_url cfg keyParam) m = true) ∧
      (¬(code = 401 ∨ code = 403) →
        m = "HTTP " ++ toString code ++ " calling " ++ url ++ ": " ++ reason ++ ".")) ∧
    (∀ r2, handle_response cfg keyParam url (.urlError r2) =
        .error (unreachableMessage r2) ∧
      strOccurs "Unable to reach Trello" (unreachableMessage r2) = true ∧
      ¬unreachableMessage r2 = httpErrorMessage cfg keyParam url code reason) := by
  constructor
  · refine ⟨httpErrorMessage cfg keyParam url code reason, rfl, ?_, ?_, ?_, ?_, ?_⟩
    · rw [show httpErrorMessage cfg keyParam url code reason =
          "HTTP " ++ toString code ++ (" calling " ++ (url ++ (": " ++ (reason ++ ("." ++
            (if code = 401 ∨ code = 403 then authorization_instructions cfg keyParam
             else "")))))) from by
        apply str_ext
        simp only [httpErrorMessage, str_data_append, List.append_assoc]
        try rfl]
      exact strOccurs_mid _ _ _
    · rw [show httpErrorMessage cfg keyParam url code reason =
          ("HTTP " ++ (toString code ++ " calling ")) ++ url ++ (": " ++ (reason ++ ("." ++
            (if code = 401 ∨ code = 403 then authorization_instructions cfg keyParam
             else "")))) from by
        apply str_ext
        simp only [httpErrorMessage, str_data_append, List.append_assoc]
        try rfl]
      exact strOccurs_mid _ _ _
    · rw [show httpErrorMessage cfg keyParam url code reason =
          ("HTTP " ++ (toString code ++ (" calling " ++ (url ++ ": ")))) ++ reason ++ ("." ++
            (if code = 401 ∨ code = 403 then authorization_instructions cfg keyParam
             else "")) from by
        apply str_ext
        simp only [httpErrorMessage, str_data_append, List.append_assoc]
        try rfl]
      exact strOccurs_mid _ _ _
    · intro h
      rw [show httpErrorMessage cfg keyParam url code reason =
          ("HTTP " ++ toString code ++ " calling " ++ url ++ ": " ++ reason ++ ".") ++
            (if code = 401 ∨ code = 403 then authorization_instructions cfg keyParam
             else "") from rfl]
      rw [if_pos h]
      refine strOccurs_right _ ?_
      rw [show authorization_instructions cfg keyParam =
          (" To grant access, open the following link while signed in as a board member, " ++
           "approve the addon, and set TRELLO_TOKEN to the token Trello returns: ") ++
            authorization_url cfg keyParam from rfl]
      exact strOccurs_right _ (strOccurs_self _)
    · intro h
      rw [show httpErrorMessage cfg keyParam url code reason =
          ("HTTP " ++ toString code ++ " calling " ++ url ++ ": " ++ reason ++ ".") ++
            (if code = 401 ∨ code = 403 then authorization_instructions cfg keyParam
             else "") from rfl]
      rw [if_neg h, str_append_empty]
  · intro r2
    refine ⟨rfl, ?_, ?_⟩
    · exact strOccurs_pre "Unable to reach Trello" _
    · intro h
      have h2 : (some 'U' : Option Char) = some 'H' :=
        congrArg (fun s => s.data.head?) h
      exact absurd h2 (by decide)

/-- C6 witness at a concrete 401 outcome. -/
theorem http_error_and_transport_messages_witness :
    (∃ m, handle_response cfgD "k" "https://api.trello.com/1/x" (.httpError 401 "Unauthorized") =
        .error m ∧
      strOccurs (toString 401) m = true ∧
      strOccurs "https://api.trello.com/1/x" m = true ∧
      strOccurs "Unauthorized" m = true ∧
      ((401 = 401 ∨ 401 = 403) → strOccurs (authorization_url cfgD "k") m = true) ∧
      (¬(401 = 401 ∨ 401 = 403) →
        m = "HTTP " ++ toString 401 ++ " calling " ++ "https://api.trello.com/1/x" ++ ": " ++
          "Unauthorized" ++ ".")) ∧
    (∀ r2, handle_response cfgD "k" "https://api.trello.com/1/x" (.urlError r2) =
        .error (unreachableMessage r2) ∧
      strOccurs "Unable to reach Trello" (unreachableMessage r2) = true ∧
      ¬unreachableMessage r2 =
        httpErrorMessage cfgD "k" "https://api.trello.com/1/x" 401 "Unauthorized") :=
  http_error_and_transport_messages cfgD "k" "https://api.trello.com/1/x" 401 "Unauthorized"

end Trello
